import Mathlib

/-!
Shallow embedding of the GLOVE render-target (framebuffer) subsystem,
`src/GLES/source/resources/framebuffer.cpp`: the masked stencil-clear
emulation, the completeness validator, the attachment-resolution cache,
color-attachment setup, the shared combined depth-stencil surface
lifecycle (creation, sharing, reference counting, destruction) and the
dirty-flag-driven render-pass rebuild logic.
-/

namespace Glove

/-! GL enumerant values used by the source (from the GLES headers). -/

def GL_NONE : Nat := 0

def GL_TEXTURE : Nat := 0x1702

def GL_RENDERBUFFER : Nat := 0x8D41

def GL_FRAMEBUFFER_COMPLETE : Nat := 0x8CD5

def GL_FRAMEBUFFER_INCOMPLETE_ATTACHMENT : Nat := 0x8CD6

def GL_FRAMEBUFFER_INCOMPLETE_MISSING_ATTACHMENT : Nat := 0x8CD7

def GL_FRAMEBUFFER_INCOMPLETE_DIMENSIONS : Nat := 0x8CD9

def GL_COLOR_ATTACHMENT0 : Nat := 0x8CE0

def GL_DEPTH_ATTACHMENT : Nat := 0x8D00

def GL_STENCIL_ATTACHMENT : Nat := 0x8D20

/-! ## Stencil clear emulation (Framebuffer::UpdateClearDepthStencilTexture) -/

/-- Per-pixel stencil byte computed at framebuffer.cpp line 379:
`(clearStencil & 0xFF) | ((oldStencilValue & 0xFF) & (~(stencilMaskFront & 0xFF)))`,
stored into a `uint8_t`. The C complement is taken at 32-bit width; the
conjunction with the 8-bit old value discards its upper bits, and the final
`% 256` is the `uint8_t` store. -/
def newStencilValue (clearStencil stencilMaskFront oldStencilValue : Nat) : Nat :=
  ((clearStencil &&& 0xFF) |||
    ((oldStencilValue &&& 0xFF) &&& (0xFFFFFFFF ^^^ (stencilMaskFront &&& 0xFF)))) % 256

/-- The read-modify-write loop of Framebuffer::UpdateClearDepthStencilTexture
(lines 375-385) on the host-side byte buffer: for each pixel of the
`width` x `height` rectangle, the byte at
`startRowIndex + row * rowStride + col * pixelByteOffset` is replaced by
`newStencilValue`. The rectangle was fetched into the buffer by
`CopyPixelsToHost` with stencil-only extraction and is written back
afterwards, so the buffer transformation is the observable effect. -/
def updateClearDepthStencilTexture (clearStencil stencilMaskFront : Nat)
    (startRowIndex rowStride pixelByteOffset width height : Nat)
    (dstData : List Nat) : List Nat :=
  (List.range height).foldl (fun buf row =>
    (List.range width).foldl (fun b col =>
      let dataIndex := startRowIndex + row * rowStride + col * pixelByteOffset
      b.set dataIndex (newStencilValue clearStencil stencilMaskFront (b.getD dataIndex 0)))
      buf) dstData

/-- The per-pixel value asserted by the claim, written from the spec words
for comparison with the source: bits selected by the mask take the clear
value and unmasked bits keep the old value, `(c & m) | (s & ~m)` over the
low 8 bits. -/
def claimStencilValue (clearStencil stencilMaskFront oldStencilValue : Nat) : Nat :=
  ((clearStencil &&& stencilMaskFront) &&& 0xFF) |||
    ((oldStencilValue &&& 0xFF) &&& (0xFF ^^^ (stencilMaskFront &&& 0xFF)))

/-! ## Completeness validation (Framebuffer::CheckStatus) -/

/-- The format and dimensions of the texture resolved behind an attachment. -/
structure TexInfo where
  internalFormat : Nat
  width : Int
  height : Int

/-- The attachment state Framebuffer::CheckStatus reads: per channel the
attachment type enumerant and the resolved backing texture (meaningful when
the type is not GL_NONE). -/
structure AttachmentState where
  colorType : Nat
  depthType : Nat
  stencilType : Nat
  colorTex : TexInfo
  depthTex : TexInfo
  stencilTex : TexInfo

/-- Framebuffer::CheckStatus (lines 226-276), parameterized by the three
renderability predicates the source takes from glUtils. -/
def checkStatus (isColorRenderable isDepthRenderable isStencilRenderable : Nat → Bool)
    (fb : AttachmentState) : Nat :=
  if fb.colorType = GL_NONE ∧ fb.depthType = GL_NONE ∧ fb.stencilType = GL_NONE then
    GL_FRAMEBUFFER_INCOMPLETE_MISSING_ATTACHMENT
  else if (fb.colorType ≠ GL_NONE ∧
            (isColorRenderable fb.colorTex.internalFormat = false ∨
             fb.colorTex.width ≤ 0 ∨ fb.colorTex.height ≤ 0)) ∨
          (fb.depthType ≠ GL_NONE ∧
            (isDepthRenderable fb.depthTex.internalFormat = false ∨
             fb.depthTex.width ≤ 0 ∨ fb.depthTex.height ≤ 0)) ∨
          (fb.stencilType ≠ GL_NONE ∧
            (isStencilRenderable fb.stencilTex.internalFormat = false ∨
             fb.stencilTex.width ≤ 0 ∨ fb.stencilTex.height ≤ 0)) then
    GL_FRAMEBUFFER_INCOMPLETE_ATTACHMENT
  else if fb.colorType ≠ GL_NONE ∧ fb.depthType ≠ GL_NONE ∧
          (fb.colorTex.width ≠ fb.depthTex.width ∨
           fb.colorTex.height ≠ fb.depthTex.height) then
    GL_FRAMEBUFFER_INCOMPLETE_DIMENSIONS
  else if fb.colorType ≠ GL_NONE ∧ fb.stencilType ≠ GL_NONE ∧
          (fb.colorTex.width ≠ fb.stencilTex.width ∨
           fb.colorTex.height ≠ fb.stencilTex.height) then
    GL_FRAMEBUFFER_INCOMPLETE_DIMENSIONS
  else if fb.depthType ≠ GL_NONE ∧ fb.stencilType ≠ GL_NONE ∧
          (fb.depthTex.width ≠ fb.stencilTex.width ∨
           fb.depthTex.height ≠ fb.stencilTex.height) then
    GL_FRAMEBUFFER_INCOMPLETE_DIMENSIONS
  else
    GL_FRAMEBUFFER_COMPLETE

/-! ## Attachment-resolution cache (Framebuffer::CleanCachedAttachment) -/

/-- The cached-resolution state of a Framebuffer: per channel the bound
attachment name (0 when nothing is bound) and type, and the six memoized
cache pointers, modelled as optional object ids. -/
structure CacheState where
  colorName : Nat
  depthName : Nat
  stencilName : Nat
  colorType : Nat
  depthType : Nat
  stencilType : Nat
  cacheColorTexture : Option Nat
  cacheDepthTexture : Option Nat
  cacheStencilTexture : Option Nat
  cacheColorRenderbuffer : Option Nat
  cacheDepthRenderbuffer : Option Nat
  cacheStencilRenderbuffer : Option Nat

/-- Framebuffer::CleanCachedAttachment (lines 446-498): on the channel
selected by the attachment enumerant, when the bound name is nonzero, null
the cache pointer matching the attachment's current type. -/
def cleanCachedAttachment (attachment : Nat) (s : CacheState) : CacheState :=
  if attachment = GL_COLOR_ATTACHMENT0 then
    if s.colorName ≠ 0 then
      if s.colorType = GL_TEXTURE then
        if s.cacheColorTexture.isSome then {s with cacheColorTexture := none} else s
      else if s.colorType = GL_RENDERBUFFER then
        if s.cacheColorRenderbuffer.isSome then {s with cacheColorRenderbuffer := none} else s
      else s
    else s
  else if attachment = GL_DEPTH_ATTACHMENT then
    if s.depthName ≠ 0 then
      if s.depthType = GL_TEXTURE then
        if s.cacheDepthTexture.isSome then {s with cacheDepthTexture := none} else s
      else if s.depthType = GL_RENDERBUFFER then
        if s.cacheDepthRenderbuffer.isSome then {s with cacheDepthRenderbuffer := none} else s
      else s
    else s
  else if attachment = GL_STENCIL_ATTACHMENT then
    if s.stencilName ≠ 0 then
      if s.stencilType = GL_TEXTURE then
        if s.cacheStencilTexture.isSome then {s with cacheStencilTexture := none} else s
      else if s.stencilType = GL_RENDERBUFFER then
        if s.cacheStencilRenderbuffer.isSome then {s with cacheStencilRenderbuffer := none}
        else s
      else s
    else s
  else s

/-! ## Color attachment setup (Framebuffer::SetColorAttachment) -/

/-- The state read and written by Framebuffer::SetColorAttachment: the
color-attachment list (each entry an optional bound texture id; a freshly
pushed Attachment is empty), the stored dimensions, the two dirty flags and
the held combined depth-stencil texture (only its dimensions are read). -/
structure ColorAttachState where
  attachmentColors : List (Option Nat)
  width : Int
  height : Int
  updated : Bool
  sizeUpdated : Bool
  depthStencilTexture : Option TexInfo

/-- Framebuffer::SetColorAttachment (lines 207-223): push one empty
Attachment only when the list is empty, adopt the dimensions, set the dirty
flag, and set the size-dirty flag when no depth-stencil texture is held or
its dimensions differ from the new ones. -/
def setColorAttachment (w h : Int) (s : ColorAttachState) : ColorAttachState :=
  let s1 := if s.attachmentColors.length = 0 then
              {s with attachmentColors := s.attachmentColors ++ [none]}
            else s
  {s1 with width := w, height := h, updated := true,
           sizeUpdated := match s1.depthStencilTexture with
                          | none => true
                          | some t => decide (t.width ≠ w) || decide (t.height ≠ h)}

/-! ## Shared depth-stencil surface lifecycle -/

/-- A combined depth-stencil surface in the heap: its dimensions, its manual
reference count, and how many times it has been finalized (`delete`d), so
that finalized-exactly-once is expressible. -/
structure DSSurf where
  width : Int
  height : Int
  refCount : Nat
  finalizeCount : Nat

/-- The heap of combined depth-stencil surfaces, addressed by id; `nextId`
is the next fresh id handed out by allocation. -/
structure World where
  surfaces : Nat → DSSurf
  nextId : Nat

def surfAt (w : World) (s : Nat) : DSSurf := w.surfaces s

def refCountOf (w : World) (s : Nat) : Nat := (surfAt w s).refCount

def finalizeCountOf (w : World) (s : Nat) : Nat := (surfAt w s).finalizeCount

def updateSurf (w : World) (s : Nat) (f : DSSurf → DSSurf) : World :=
  {w with surfaces := fun i => if i = s then f (w.surfaces i) else w.surfaces i}

/-- Texture::IncreaseDepthStencilTextureRefCount. Modelled from the spec:
the Texture class is outside the excerpted sources; the spec describes a
manual reference count on the shared combined surface. -/
def increaseRefCount (w : World) (s : Nat) : World :=
  updateSurf w s (fun o => {o with refCount := o.refCount + 1})

/-- Texture::DecreaseDepthStencilTextureRefCount. Modelled from the spec,
like `increaseRefCount`. -/
def decreaseRefCount (w : World) (s : Nat) : World :=
  updateSurf w s (fun o => {o with refCount := o.refCount - 1})

/-- `delete` of a surface: finalization, counted. -/
def finalizeSurf (w : World) (s : Nat) : World :=
  updateSurf w s (fun o => {o with finalizeCount := o.finalizeCount + 1})

/-- A texture as the framebuffer code sees it: dimensions, the data-updated
flag, and the recorded shared depth-stencil surface id
(Texture::GetDepthStencilTexture / SetDepthStencilTexture). -/
structure GTex where
  width : Int
  height : Int
  dataUpdated : Bool
  depthStencilTexture : Option Nat

structure Rect where
  x : Int
  y : Int
  width : Int
  height : Int

/-- The Framebuffer fields the lifecycle code reads and writes: the
window-surface marker, dimensions, the two dirty flags, the held surface id,
the six clear/write-enable flags stored on the render pass, generation
counters standing for the identities of the lower-level render-pass handle
and of the per-buffer framebuffer objects, and the begin-time clear
parameters. -/
structure FBState where
  isSystem : Bool
  width : Int
  height : Int
  updated : Bool
  sizeUpdated : Bool
  depthStencilTexture : Option Nat
  rpColorClear : Bool
  rpDepthClear : Bool
  rpStencilClear : Bool
  rpColorWrite : Bool
  rpDepthWrite : Bool
  rpStencilWrite : Bool
  rpGen : Nat
  fbGen : Nat
  clearRect : Rect
  clearStencilValue : Nat

/-- Framebuffer::CreateDepthStencilTexture (lines 299-340). A freshly
allocated surface starts at reference count 0 (the Texture constructor is
outside the excerpt; modelled from the spec's manual-refcount description).
The resolved depth and stencil attachment textures are passed in; the
possibly updated depth texture is returned alongside the state and heap. -/
def createDepthStencilTexture (fb : FBState) (depthTex stencilTex : Option GTex)
    (w : World) : FBState × Option GTex × World :=
  if depthTex.isSome || stencilTex.isSome then
    match (if fb.isSystem then (none : Option Nat)
           else depthTex.bind GTex.depthStencilTexture) with
    | some s =>
        ({fb with depthStencilTexture := some s}, depthTex, increaseRefCount w s)
    | none =>
        let w1 := match fb.depthStencilTexture with
                  | some s => finalizeSurf w s
                  | none => w
        let newId := w1.nextId
        let w2 : World :=
          {surfaces := fun i => if i = newId then
                          {width := fb.width, height := fb.height,
                           refCount := 0, finalizeCount := 0}
                        else w1.surfaces i,
           nextId := newId + 1}
        let fb1 := {fb with depthStencilTexture := some newId}
        if !fb1.isSystem && depthTex.isSome then
          (fb1, depthTex.map (fun t => {t with depthStencilTexture := some newId}),
           increaseRefCount w2 newId)
        else
          (fb1, depthTex, w2)
  else (fb, depthTex, w)

/-- The depth-stencil release performed by Framebuffer::~Framebuffer
(lines 58-65): for a non-system framebuffer holding a surface, delete it if
its reference count is 1, otherwise decrement the count. -/
def destructorReleaseDS (fb : FBState) (w : World) : World :=
  if !fb.isSystem then
    match fb.depthStencilTexture with
    | some s => if refCountOf w s = 1 then finalizeSurf w s else decreaseRefCount w s
    | none => w
  else w

/-- Framebuffer::CheckForUpdatedResources (lines 394-410): adopt the color
attachment texture's data-updated flag, and when its dimensions differ from
the stored ones adopt them and set the size-dirty flag; the texture's
data-updated flag is reset. -/
def checkForUpdatedResources (fb : FBState) (colorTex : Option GTex) :
    FBState × Option GTex :=
  match colorTex with
  | some t =>
      let fb1 := {fb with updated := fb.updated || t.dataUpdated}
      let fb2 := if t.width ≠ fb1.width ∨ t.height ≠ fb1.height then
                   {fb1 with width := t.width, height := t.height, sizeUpdated := true}
                 else fb1
      (fb2, some {t with dataUpdated := false})
  | none => (fb, colorTex)

/-- Framebuffer::CreateVkRenderPass (lines 278-296): store the six flags on
the render pass and recreate the underlying handle (a fresh identity). -/
def createVkRenderPass (c1 c2 c3 d1 d2 d3 : Bool) (fb : FBState) : FBState :=
  {fb with rpColorClear := c1, rpDepthClear := c2, rpStencilClear := c3,
           rpColorWrite := d1, rpDepthWrite := d2, rpStencilWrite := d3,
           rpGen := fb.rpGen + 1}

/-- The rebuild steps Framebuffer::CreateRenderPass can perform, in the
order they are emitted. -/
inductive RebuildEvent where
  | depthStencilRebuild : RebuildEvent
  | renderPassBuild : RebuildEvent
  | framebuffersBuild : RebuildEvent
deriving DecidableEq

/-- The rebuild trigger of Framebuffer::CreateRenderPass (lines 625-631):
dirty, size-dirty, or any of the six flags differing from those stored on
the currently built render pass. -/
def needsRebuild (c1 c2 c3 d1 d2 d3 : Bool) (fb : FBState) : Bool :=
  fb.updated || fb.sizeUpdated ||
  (fb.rpColorClear != c1) || (fb.rpDepthClear != c2) || (fb.rpStencilClear != c3) ||
  (fb.rpColorWrite != d1) || (fb.rpDepthWrite != d2) || (fb.rpStencilWrite != d3)

/-- Framebuffer::CreateRenderPass (lines 617-651): when the rebuild trigger
fires, first (off-screen and size-dirty only) rebuild the depth-stencil
texture and clear the size-dirty flag, then recreate the render pass with
the new flags and rebuild the per-buffer framebuffer objects, and clear the
dirty flag; the begin-time clear rectangle and clear stencil value are
always updated. Also returns the list of rebuild steps performed, in
order. -/
def createRenderPass (c1 c2 c3 d1 d2 d3 : Bool) (stencilValue : Nat) (clearRect : Rect)
    (fb : FBState) (depthTex stencilTex : Option GTex) (w : World) :
    FBState × Option GTex × World × List RebuildEvent :=
  if needsRebuild c1 c2 c3 d1 d2 d3 fb then
    let step1 : FBState × Option GTex × World × List RebuildEvent :=
      if !fb.isSystem && fb.sizeUpdated then
        let r := createDepthStencilTexture fb depthTex stencilTex w
        ({r.1 with sizeUpdated := false}, r.2.1, r.2.2, [RebuildEvent.depthStencilRebuild])
      else (fb, depthTex, w, [])
    let fb2 := createVkRenderPass c1 c2 c3 d1 d2 d3 step1.1
    let fb3 := {fb2 with fbGen := fb2.fbGen + 1, updated := false,
                         clearRect := clearRect, clearStencilValue := stencilValue}
    (fb3, step1.2.1, step1.2.2.1,
     step1.2.2.2 ++ [RebuildEvent.renderPassBuild, RebuildEvent.framebuffersBuild])
  else
    ({fb with clearRect := clearRect, clearStencilValue := stencilValue},
     depthTex, w, [])

/-! ## Per-buffer target rebuild (Framebuffer::Create) -/

/-- The per-slot construction loop of Framebuffer::Create (lines 695-712):
`ok i` tells whether the lower-level framebuffer object for slot `i` can be
built (device behavior); a built object is identified by its slot index.
A failing slot deletes the fresh object and aborts with false, keeping the
objects accumulated so far. -/
def createPerBufferAux (ok : Nat → Bool) : Nat → Nat → List Nat → Bool × List Nat
  | 0, _, acc => (true, acc)
  | k + 1, i, acc =>
      if ok i then createPerBufferAux ok k (i + 1) (acc ++ [i]) else (false, acc)

/-- Framebuffer::Create (lines 688-715): Release() first destroys every
existing per-buffer object — the previous list is discarded whole — then
one object is built per color-attachment slot. -/
def framebufferCreate (ok : Nat → Bool) (numColorAttachments : Nat) :
    List Nat → Bool × List Nat :=
  fun _prevFramebuffers => createPerBufferAux ok numColorAttachments 0 []

/-! ## Concrete scenario states used by the theorems -/

/-- The empty heap. -/
def dsWorld0 : World :=
  {surfaces := fun _ => {width := 0, height := 0, refCount := 0, finalizeCount := 0},
   nextId := 0}

/-- An off-screen framebuffer with all flags clean and no held surface. -/
def baseFB : FBState :=
  {isSystem := false, width := 256, height := 256, updated := false, sizeUpdated := false,
   depthStencilTexture := none, rpColorClear := false, rpDepthClear := false,
   rpStencilClear := false, rpColorWrite := false, rpDepthWrite := false,
   rpStencilWrite := false, rpGen := 0, fbGen := 0,
   clearRect := {x := 0, y := 0, width := 0, height := 0}, clearStencilValue := 0}

/-- A depth-bearing texture with no recorded shared surface yet. -/
def c2DepthTex : GTex :=
  {width := 256, height := 256, dataUpdated := false, depthStencilTexture := none}

/-- First framebuffer creates the shared surface and records it on the
depth texture. -/
def c2Step1 : FBState × Option GTex × World :=
  createDepthStencilTexture baseFB (some c2DepthTex) none dsWorld0

/-- Second framebuffer, given the same (now updated) depth texture, finds
and reuses the recorded surface. -/
def c2Step2 : FBState × Option GTex × World :=
  createDepthStencilTexture baseFB c2Step1.2.1 none c2Step1.2.2

/-- Heap after the first framebuffer is destroyed. -/
def c2AfterFirstDestroy : World := destructorReleaseDS c2Step1.1 c2Step2.2.2

/-- Heap after both framebuffers are destroyed. -/
def c2AfterBothDestroy : World := destructorReleaseDS c2Step2.1 c2AfterFirstDestroy

/-- Heap for the C3 scenario: one surface, shared (reference count 2). -/
def c3World : World :=
  {surfaces := fun i => if i = 0 then
                  {width := 256, height := 256, refCount := 2, finalizeCount := 0}
                else {width := 0, height := 0, refCount := 0, finalizeCount := 0},
   nextId := 1}

/-- A framebuffer currently holding the shared surface 0. -/
def c3FB : FBState := {baseFB with depthStencilTexture := some 0}

/-- A depth attachment texture with no recorded surface, so the reuse branch
is not taken and a new surface must be allocated. -/
def c3DepthTex : GTex :=
  {width := 256, height := 256, dataUpdated := false, depthStencilTexture := none}

def c3Result : FBState × Option GTex × World :=
  createDepthStencilTexture c3FB (some c3DepthTex) none c3World

/-- Heap for the C6 scenario: the shared 256x256 surface, reference count 1,
recorded on the depth attachment texture. -/
def c6World : World :=
  {surfaces := fun i => if i = 0 then
                  {width := 256, height := 256, refCount := 1, finalizeCount := 0}
                else {width := 0, height := 0, refCount := 0, finalizeCount := 0},
   nextId := 1}

/-- The depth attachment texture, which records the shared surface 0. -/
def c6DepthTex : GTex :=
  {width := 256, height := 256, dataUpdated := false, depthStencilTexture := some 0}

/-- The replacement color texture, 512x512. -/
def c6NewColorTex : GTex :=
  {width := 512, height := 512, dataUpdated := false, depthStencilTexture := none}

def c6FB : FBState := {baseFB with depthStencilTexture := some 0}

def c6AfterCheck : FBState × Option GTex :=
  checkForUpdatedResources c6FB (some c6NewColorTex)

def c6AfterPrepare : FBState × Option GTex × World × List RebuildEvent :=
  createRenderPass false false false false false false 0
    {x := 0, y := 0, width := 0, height := 0} c6AfterCheck.1 (some c6DepthTex) none c6World

/-- A window-surface framebuffer with the size-dirty flag set. -/
def c5SystemFB : FBState := {baseFB with isSystem := true, sizeUpdated := true}

def c5Rect : Rect := {x := 0, y := 0, width := 0, height := 0}

def c5First : FBState × Option GTex × World × List RebuildEvent :=
  createRenderPass false false false false false false 0 c5Rect c5SystemFB none none dsWorld0

def c5Second : FBState × Option GTex × World × List RebuildEvent :=
  createRenderPass false false false false false false 0 c5Rect c5First.1 c5First.2.1 none
    c5First.2.2.1

/-- An off-screen double call used to witness the amended idempotence. -/
def c5OffFirst : FBState × Option GTex × World × List RebuildEvent :=
  createRenderPass true true true true true true 7
    {x := 0, y := 0, width := 1, height := 1} baseFB none none dsWorld0

def c5OffSecond : FBState × Option GTex × World × List RebuildEvent :=
  createRenderPass true true true true true true 7
    {x := 0, y := 0, width := 1, height := 1} c5OffFirst.1 c5OffFirst.2.1 none c5OffFirst.2.2.1

/-- Attachment state for the C7 witness: a color attachment with zero width
and a depth attachment of different, valid dimensions. -/
def c7FB : AttachmentState :=
  {colorType := GL_TEXTURE, depthType := GL_TEXTURE, stencilType := GL_NONE,
   colorTex := {internalFormat := 0, width := 0, height := 16},
   depthTex := {internalFormat := 0, width := 16, height := 16},
   stencilTex := {internalFormat := 0, width := 0, height := 0}}

/-- Cache state for C9: color channel bound to name 5 as a texture, with a
stale renderbuffer cache entry alongside the texture cache entry. -/
def c9State : CacheState :=
  {colorName := 5, depthName := 0, stencilName := 0,
   colorType := GL_TEXTURE, depthType := 0, stencilType := 0,
   cacheColorTexture := some 7, cacheDepthTexture := none, cacheStencilTexture := none,
   cacheColorRenderbuffer := some 9, cacheDepthRenderbuffer := none,
   cacheStencilRenderbuffer := none}

/-- Color-attachment state for the C10 witness: one existing attachment. -/
def c10State : ColorAttachState :=
  {attachmentColors := [some 3], width := 1, height := 1, updated := false,
   sizeUpdated := false, depthStencilTexture := none}

/-! ## Helper lemmas -/

/-- Characterization of the per-slot loop at its first failing slot: the
loop returns false together with the accumulator extended by exactly the
objects for the slots before the failure. -/
theorem createPerBufferAux_first_failure (ok : Nat → Bool) :
    ∀ (j k i : Nat) (acc : List Nat), j < k → ok (i + j) = false →
      (∀ t, t < j → ok (i + t) = true) →
      createPerBufferAux ok k i acc = (false, acc ++ (List.range j).map (fun t => i + t)) := by
  intro j
  induction j with
  | zero =>
      intro k i acc hk hfail _
      cases k with
      | zero => omega
      | succ k2 =>
          have hfi : ok i = false := by simpa using hfail
          simp [createPerBufferAux, hfi]
  | succ j ih =>
      intro k i acc hk hfail hok
      cases k with
      | zero => omega
      | succ k2 =>
          have h0 : ok i = true := by simpa using hok 0 (Nat.succ_pos j)
          have hstep : createPerBufferAux ok (k2 + 1) i acc =
              createPerBufferAux ok k2 (i + 1) (acc ++ [i]) := by
            simp [createPerBufferAux, h0]
          rw [hstep]
          have hf2 : ok ((i + 1) + j) = false := by
            have he : (i + 1) + j = i + (j + 1) := by omega
            rw [he]; exact hfail
          have ho2 : ∀ t, t < j → ok ((i + 1) + t) = true := by
            intro t ht
            have he : (i + 1) + t = i + (t + 1) := by omega
            rw [he]; exact hok (t + 1) (by omega)
          rw [ih k2 (i + 1) (acc ++ [i]) (by omega) hf2 ho2]
          have hfeq : (fun t => (i + 1) + t) = (fun t : Nat => i + (t + 1)) :=
            funext (fun t => by omega)
          rw [List.range_succ_eq_map]
          simp [List.map_map, Function.comp, hfeq]

/-- After one CreateRenderPass call on a framebuffer that is not a window
surface with the size-dirty flag set, the rebuild trigger is off for a
repeat call with the same flags. -/
theorem needsRebuild_after_createRenderPass (c1 c2 c3 d1 d2 d3 : Bool) (sv : Nat)
    (cr : Rect) (fb : FBState) (depthTex stencilTex : Option GTex) (w : World)
    (h : fb.isSystem = false ∨ fb.sizeUpdated = false) :
    needsRebuild c1 c2 c3 d1 d2 d3
      (createRenderPass c1 c2 c3 d1 d2 d3 sv cr fb depthTex stencilTex w).1 = false := by
  simp only [createRenderPass]
  split
  next hreb =>
    split
    next hsz =>
      simp [needsRebuild, createVkRenderPass]
    next hsz =>
      simp [needsRebuild, createVkRenderPass]
      rcases h with h | h
      · simp [h] at hsz
        exact hsz
      · exact h
  next hreb =>
    have hfalse : needsRebuild c1 c2 c3 d1 d2 d3 fb = false := by
      simpa using hreb
    simpa [needsRebuild] using hfalse

/-! ## Claim theorems -/

/-- Claim C1, evidence of the code bug at the failing input: a 1x1 masked
stencil clear with clear value 0xA5, front mask 0xF0 and prior stencil byte
0x00 stores back 0xA5 — the code ORs the full clear byte in without masking
it — whereas the claimed value (c & m) | (s & ~m) is 0xA0. -/
theorem updateClearStencil_bug_concrete :
    updateClearDepthStencilTexture 0xA5 0xF0 0 1 1 1 1 [0x00] = [0xA5] ∧
    claimStencilValue 0xA5 0xF0 0x00 = 0xA0 ∧ (0xA5 : Nat) ≠ 0xA0 := by
  decide

/-- Claim C8: an 8x8 masked stencil clear (row stride 8, one byte per
pixel) with uniform prior value 0x0F, clear value 0xA5 and front mask 0xF0
leaves every pixel of the written-back buffer at 0xAF. -/
theorem stencil_masked_clear_8x8 :
    updateClearDepthStencilTexture 0xA5 0xF0 0 8 1 8 8 (List.replicate 64 0x0F) =
      List.replicate 64 0xAF := by
  decide

/-- Claim C2: two off-screen framebuffers share one combined depth-stencil
surface through the same depth texture; destroying the first decrements the
reference count from 2 to 1 without finalizing, and destroying the second
finalizes exactly once. Moreover any destructor release of a held surface
finalizes it exactly when the decremented count reaches zero, and otherwise
only decrements the count. -/
theorem depthStencil_refcount_roundtrip :
    (refCountOf c2Step2.2.2 0 = 2 ∧
     refCountOf c2AfterFirstDestroy 0 = 1 ∧
     finalizeCountOf c2AfterFirstDestroy 0 = 0 ∧
     finalizeCountOf c2AfterBothDestroy 0 = 1) ∧
    (∀ (w : World) (fb : FBState) (s : Nat),
      fb.isSystem = false → fb.depthStencilTexture = some s → 1 ≤ refCountOf w s →
        ((finalizeCountOf (destructorReleaseDS fb w) s = finalizeCountOf w s + 1 ↔
            refCountOf w s - 1 = 0) ∧
         (refCountOf w s - 1 ≠ 0 →
            refCountOf (destructorReleaseDS fb w) s = refCountOf w s - 1 ∧
            finalizeCountOf (destructorReleaseDS fb w) s = finalizeCountOf w s))) := by
  refine ⟨by decide, ?_⟩
  intro w fb s hsys hds hge
  simp only [refCountOf, surfAt] at hge
  by_cases h1 : (w.surfaces s).refCount = 1
  · simp [destructorReleaseDS, hsys, hds, h1, finalizeSurf, updateSurf,
          finalizeCountOf, refCountOf, surfAt]
  · simp [destructorReleaseDS, hsys, hds, h1, decreaseRefCount, updateSurf,
          finalizeCountOf, refCountOf, surfAt]
    omega

/-- Witness for the universally quantified part of the C2 theorem, applied
to the concrete shared-surface scenario after the first destruction. -/
theorem depthStencil_refcount_roundtrip_witness :
    (finalizeCountOf (destructorReleaseDS c2Step2.1 c2AfterFirstDestroy) 0 =
        finalizeCountOf c2AfterFirstDestroy 0 + 1 ↔
      refCountOf c2AfterFirstDestroy 0 - 1 = 0) :=
  (depthStencil_refcount_roundtrip.2 c2AfterFirstDestroy c2Step2.1 0 (by decide)
    (by decide) (by decide)).1

/-- Claim C3, evidence of the code bug at the failing input: when
CreateDepthStencilTexture cannot reuse a recorded surface and must allocate,
it deletes the previously held surface unconditionally — here the held
surface has reference count 2, is finalized anyway, and its count is never
decremented. -/
theorem createDepthStencil_unconditional_delete_bug :
    refCountOf c3World 0 = 2 ∧
    finalizeCountOf c3Result.2.2 0 = 1 ∧
    refCountOf c3Result.2.2 0 = 2 ∧
    c3Result.1.depthStencilTexture = some 1 := by
  decide

/-- Claim C4 counterexample: with two buffer slots where slot 0 succeeds
and slot 1 fails, the rebuild reports false but the object built for slot 0
remains in the per-buffer list, refuting that no per-buffer objects are
left. -/
theorem create_partial_failure_counterexample :
    framebufferCreate (fun i => i == 0) 2 [99] = (false, [0]) ∧
    ([0] : List Nat) ≠ [] := by
  decide

/-- Claim C4 amended: when the lower-level object for slot i fails while all
earlier slots succeed, the rebuild aborts with false and the failed slot's
object is not retained; every per-buffer object existing before the rebuild
was released at its start, but the objects built for slots 0..i-1 in the
same rebuild remain in the list. -/
theorem create_failure_aborts_amended (ok : Nat → Bool) (n : Nat)
    (prevFramebuffers : List Nat) (i : Nat) (hi : i < n) (hfail : ok i = false)
    (hok : ∀ t, t < i → ok t = true) :
    framebufferCreate ok n prevFramebuffers = (false, List.range i) := by
  have h := createPerBufferAux_first_failure ok i n 0 [] hi (by simpa using hfail)
    (by intro t ht; simpa using hok t ht)
  rw [framebufferCreate, h]
  simp

/-- Witness for the amended C4 theorem at a concrete failing rebuild. -/
theorem create_failure_aborts_amended_witness :
    framebufferCreate (fun i => i == 0) 3 [7] = (false, List.range 1) :=
  create_failure_aborts_amended (fun i => i == 0) 3 [7] 1 (by decide) (by decide)
    (by decide)

/-- Claim C5 counterexample: a window-surface framebuffer with the
size-dirty flag set rebuilds on both of two consecutive identical
CreateRenderPass calls — the first call clears size-dirty only off-screen —
so the render-pass and per-buffer identities change again on the second
call. -/
theorem prepareForRender_window_sizeDirty_counterexample :
    c5First.2.2.2 ≠ [] ∧ c5Second.2.2.2 ≠ [] ∧
    c5Second.1.fbGen ≠ c5First.1.fbGen ∧ c5Second.1.rpGen ≠ c5First.1.rpGen := by
  decide

/-- Claim C5 amended: for a framebuffer that is not a window surface with
the size-dirty flag set, two consecutive CreateRenderPass calls with
identical flags and no attachment mutation perform no rebuild on the second
call: the render-pass and per-buffer identities are unchanged and no
rebuild step is emitted. -/
theorem prepareForRender_idempotent_amended (c1 c2 c3 d1 d2 d3 : Bool) (sv : Nat)
    (cr : Rect) (fb : FBState) (depthTex stencilTex : Option GTex) (w : World)
    (h : fb.isSystem = false ∨ fb.sizeUpdated = false) :
    (createRenderPass c1 c2 c3 d1 d2 d3 sv cr
        (createRenderPass c1 c2 c3 d1 d2 d3 sv cr fb depthTex stencilTex w).1
        (createRenderPass c1 c2 c3 d1 d2 d3 sv cr fb depthTex stencilTex w).2.1
        stencilTex
        (createRenderPass c1 c2 c3 d1 d2 d3 sv cr fb depthTex stencilTex w).2.2.1).1.rpGen =
      (createRenderPass c1 c2 c3 d1 d2 d3 sv cr fb depthTex stencilTex w).1.rpGen ∧
    (createRenderPass c1 c2 c3 d1 d2 d3 sv cr
        (createRenderPass c1 c2 c3 d1 d2 d3 sv cr fb depthTex stencilTex w).1
        (createRenderPass c1 c2 c3 d1 d2 d3 sv cr fb depthTex stencilTex w).2.1
        stencilTex
        (createRenderPass c1 c2 c3 d1 d2 d3 sv cr fb depthTex stencilTex w).2.2.1).1.fbGen =
      (createRenderPass c1 c2 c3 d1 d2 d3 sv cr fb depthTex stencilTex w).1.fbGen ∧
    (createRenderPass c1 c2 c3 d1 d2 d3 sv cr
        (createRenderPass c1 c2 c3 d1 d2 d3 sv cr fb depthTex stencilTex w).1
        (createRenderPass c1 c2 c3 d1 d2 d3 sv cr fb depthTex stencilTex w).2.1
        stencilTex
        (createRenderPass c1 c2 c3 d1 d2 d3 sv cr fb depthTex stencilTex w).2.2.1).2.2.2 =
      [] := by
  have hnr := needsRebuild_after_createRenderPass c1 c2 c3 d1 d2 d3 sv cr fb depthTex
    stencilTex w h
  generalize createRenderPass c1 c2 c3 d1 d2 d3 sv cr fb depthTex stencilTex w = r1 at hnr ⊢
  simp [createRenderPass, hnr]

/-- Witness for the amended C5 theorem on a concrete off-screen
framebuffer. -/
theorem prepareForRender_idempotent_amended_witness :
    c5OffSecond.1.rpGen = c5OffFirst.1.rpGen ∧
    c5OffSecond.1.fbGen = c5OffFirst.1.fbGen ∧
    c5OffSecond.2.2.2 = [] :=
  prepareForRender_idempotent_amended true true true true true true 7
    {x := 0, y := 0, width := 1, height := 1} baseFB none none dsWorld0 (Or.inl rfl)

/-- Claim C6, evidence of the code bug at the failing input: replacing the
256x256 color texture with a 512x512 one does set the size-dirty flag and
adopts the new dimensions, and the next CreateRenderPass runs the
depth-stencil step before the render-pass and per-buffer rebuilds; but
because the depth attachment texture records the shared surface, that
surface is reused at 256x256 with its reference count incremented instead
of being rebuilt at 512x512. -/
theorem resize_reuses_stale_depthStencil_bug :
    c6AfterCheck.1.sizeUpdated = true ∧
    c6AfterCheck.1.width = 512 ∧ c6AfterCheck.1.height = 512 ∧
    c6AfterPrepare.1.depthStencilTexture = some 0 ∧
    (surfAt c6AfterPrepare.2.2.1 0).width = 256 ∧
    refCountOf c6AfterPrepare.2.2.1 0 = 2 ∧
    c6AfterPrepare.2.2.2 = [RebuildEvent.depthStencilRebuild, RebuildEvent.renderPassBuild,
                            RebuildEvent.framebuffersBuild] ∧
    (256 : Int) ≠ 512 := by
  decide

/-- Claim C7: whenever some bound attachment fails its renderability
predicate or has non-positive width or height, CheckStatus returns the
bad-attachment status — never the dimension-mismatch status — regardless of
any dimension mismatches among the bound attachments. -/
theorem checkStatus_bad_attachment_first
    (cr dr sr : Nat → Bool) (fb : AttachmentState)
    (hbad :
      (fb.colorType ≠ GL_NONE ∧
        (cr fb.colorTex.internalFormat = false ∨ fb.colorTex.width ≤ 0 ∨
         fb.colorTex.height ≤ 0)) ∨
      (fb.depthType ≠ GL_NONE ∧
        (dr fb.depthTex.internalFormat = false ∨ fb.depthTex.width ≤ 0 ∨
         fb.depthTex.height ≤ 0)) ∨
      (fb.stencilType ≠ GL_NONE ∧
        (sr fb.stencilTex.internalFormat = false ∨ fb.stencilTex.width ≤ 0 ∨
         fb.stencilTex.height ≤ 0))) :
    checkStatus cr dr sr fb = GL_FRAMEBUFFER_INCOMPLETE_ATTACHMENT ∧
    checkStatus cr dr sr fb ≠ GL_FRAMEBUFFER_INCOMPLETE_DIMENSIONS := by
  have hn : ¬(fb.colorType = GL_NONE ∧ fb.depthType = GL_NONE ∧ fb.stencilType = GL_NONE) := by
    rcases hbad with ⟨h1, _⟩ | ⟨h1, _⟩ | ⟨h1, _⟩ <;> tauto
  unfold checkStatus
  rw [if_neg hn, if_pos hbad]
  exact ⟨rfl, by decide⟩

/-- Witness for the C7 theorem: a zero-width color attachment together with
a differently sized valid depth attachment yields bad-attachment. -/
theorem checkStatus_bad_attachment_first_witness :
    checkStatus (fun _ => true) (fun _ => true) (fun _ => true) c7FB =
      GL_FRAMEBUFFER_INCOMPLETE_ATTACHMENT ∧
    checkStatus (fun _ => true) (fun _ => true) (fun _ => true) c7FB ≠
      GL_FRAMEBUFFER_INCOMPLETE_DIMENSIONS :=
  checkStatus_bad_attachment_first (fun _ => true) (fun _ => true) (fun _ => true) c7FB
    (Or.inl ⟨by decide, Or.inr (Or.inl (by decide))⟩)

/-- Claim C9 counterexample: with the color channel bound by name 5 as a
texture and both a cached texture pointer and a stale cached renderbuffer
pointer present, CleanCachedAttachment nulls only the texture pointer; the
renderbuffer pointer survives, refuting that both pointers are null
afterwards. -/
theorem cleanCachedAttachment_counterexample :
    (cleanCachedAttachment GL_COLOR_ATTACHMENT0 c9State).cacheColorTexture = none ∧
    (cleanCachedAttachment GL_COLOR_ATTACHMENT0 c9State).cacheColorRenderbuffer = some 9 ∧
    some 9 ≠ (none : Option Nat) := by
  decide

/-- Claim C9 amended: for each channel, when the channel's attachment name
is nonzero CleanCachedAttachment nulls the cached pointer matching the
attachment's current type and leaves the opposite-type cached pointer
unchanged; when the name is zero the state is unchanged. -/
theorem cleanCachedAttachment_amended (s : CacheState) :
    ((s.colorName ≠ 0 → s.colorType = GL_TEXTURE →
        (cleanCachedAttachment GL_COLOR_ATTACHMENT0 s).cacheColorTexture = none ∧
        (cleanCachedAttachment GL_COLOR_ATTACHMENT0 s).cacheColorRenderbuffer =
          s.cacheColorRenderbuffer) ∧
     (s.colorName ≠ 0 → s.colorType = GL_RENDERBUFFER →
        (cleanCachedAttachment GL_COLOR_ATTACHMENT0 s).cacheColorRenderbuffer = none ∧
        (cleanCachedAttachment GL_COLOR_ATTACHMENT0 s).cacheColorTexture =
          s.cacheColorTexture) ∧
     (s.colorName = 0 → cleanCachedAttachment GL_COLOR_ATTACHMENT0 s = s)) ∧
    ((s.depthName ≠ 0 → s.depthType = GL_TEXTURE →
        (cleanCachedAttachment GL_DEPTH_ATTACHMENT s).cacheDepthTexture = none ∧
        (cleanCachedAttachment GL_DEPTH_ATTACHMENT s).cacheDepthRenderbuffer =
          s.cacheDepthRenderbuffer) ∧
     (s.depthName ≠ 0 → s.depthType = GL_RENDERBUFFER →
        (cleanCachedAttachment GL_DEPTH_ATTACHMENT s).cacheDepthRenderbuffer = none ∧
        (cleanCachedAttachment GL_DEPTH_ATTACHMENT s).cacheDepthTexture =
          s.cacheDepthTexture) ∧
     (s.depthName = 0 → cleanCachedAttachment GL_DEPTH_ATTACHMENT s = s)) ∧
    ((s.stencilName ≠ 0 → s.stencilType = GL_TEXTURE →
        (cleanCachedAttachment GL_STENCIL_ATTACHMENT s).cacheStencilTexture = none ∧
        (cleanCachedAttachment GL_STENCIL_ATTACHMENT s).cacheStencilRenderbuffer =
          s.cacheStencilRenderbuffer) ∧
     (s.stencilName ≠ 0 → s.stencilType = GL_RENDERBUFFER →
        (cleanCachedAttachment GL_STENCIL_ATTACHMENT s).cacheStencilRenderbuffer = none ∧
        (cleanCachedAttachment GL_STENCIL_ATTACHMENT s).cacheStencilTexture =
          s.cacheStencilTexture) ∧
     (s.stencilName = 0 → cleanCachedAttachment GL_STENCIL_ATTACHMENT s = s)) := by
  refine ⟨⟨?_, ?_, ?_⟩, ⟨?_, ?_, ?_⟩, ⟨?_, ?_, ?_⟩⟩ <;>
    intro h1 <;>
    first
    | (intro h2
       simp only [cleanCachedAttachment, GL_COLOR_ATTACHMENT0, GL_DEPTH_ATTACHMENT,
         GL_STENCIL_ATTACHMENT, GL_TEXTURE, GL_RENDERBUFFER] at *
       simp [h1, h2]
       cases hky : s.cacheColorTexture <;>
       cases hky2 : s.cacheColorRenderbuffer <;>
       cases hky3 : s.cacheDepthTexture <;>
       cases hky4 : s.cacheDepthRenderbuffer <;>
       cases hky5 : s.cacheStencilTexture <;>
       cases hky6 : s.cacheStencilRenderbuffer <;>
       simp [hky, hky2, hky3, hky4, hky5, hky6])
    | (simp only [cleanCachedAttachment, GL_COLOR_ATTACHMENT0, GL_DEPTH_ATTACHMENT,
         GL_STENCIL_ATTACHMENT, GL_TEXTURE, GL_RENDERBUFFER]
       simp [h1])

/-- Witness for the amended C9 theorem at the concrete cache state. -/
theorem cleanCachedAttachment_amended_witness :
    (cleanCachedAttachment GL_COLOR_ATTACHMENT0 c9State).cacheColorTexture = none ∧
    (cleanCachedAttachment GL_COLOR_ATTACHMENT0 c9State).cacheColorRenderbuffer =
      c9State.cacheColorRenderbuffer :=
  (cleanCachedAttachment_amended c9State).1.1 (by decide) (by decide)

/-- Claim C10: SetColorAttachment appends an (empty) color attachment only
when the list is empty — so the result is always nonempty, an already
nonempty list is returned unchanged, the length is exactly max 1 (previous
length), and besides the flags only the stored dimensions change. -/
theorem setColorAttachment_single_entry (w h : Int) (s : ColorAttachState) :
    (setColorAttachment w h s).attachmentColors ≠ [] ∧
    (s.attachmentColors ≠ [] →
      (setColorAttachment w h s).attachmentColors = s.attachmentColors) ∧
    (setColorAttachment w h s).attachmentColors.length = max 1 s.attachmentColors.length ∧
    (setColorAttachment w h s).width = w ∧
    (setColorAttachment w h s).height = h ∧
    (setColorAttachment w h s).updated = true ∧
    (setColorAttachment w h s).depthStencilTexture = s.depthStencilTexture := by
  cases hs : s.attachmentColors with
  | nil =>
      refine ⟨?_, ?_, ?_, ?_, ?_, ?_, ?_⟩ <;> simp [setColorAttachment, hs]
  | cons a l =>
      refine ⟨?_, ?_, ?_, ?_, ?_, ?_, ?_⟩ <;> simp [setColorAttachment, hs]

/-- Witness for the C10 theorem on a framebuffer that already has one color
attachment. -/
theorem setColorAttachment_single_entry_witness :
    (setColorAttachment 9 9 c10State).attachmentColors ≠ [] ∧
    (setColorAttachment 9 9 c10State).attachmentColors = c10State.attachmentColors :=
  ⟨(setColorAttachment_single_entry 9 9 c10State).1,
   (setColorAttachment_single_entry 9 9 c10State).2.1 (by decide)⟩

end Glove
